import Mathlib

/-!
Verification of the geofenced reminder notification subsystem of the
pingme repository (src/services/notificationService.tsx).

The embedding translates the source module:

* `calculateDistance` — the haversine distance (real-valued, mirrored
  over `ℝ` with JavaScript `Math.atan2` modelled by `atan2` below);
* the module-level `triggeredReminders` set plus the pending `setTimeout`
  cooldown deletions, bundled as `MonitorState` (the `taskRegistered`
  flag models whether the background location task is registered);
* `checkNearbyReminders` — one tick of the monitor.  The reminder fetch
  is a parameter `fetch : Option (List LocationReminder)` (`none` covers
  every failure path: non-ok response, a fetch or JSON exception — all
  end in the early `return` or the surrounding `catch`).  The distance
  actually computed by the source is `calculateDistance` on the sample
  and reminder coordinates; since that value is transcendental the tick
  carries it as a rational-valued oracle `dist : Coords → Coords → ℚ`
  standing for the computed distance, so that the hysteresis logic —
  which only compares the value against the 100 m and 200 m radii —
  stays executable.  Notification dispatch is recorded as an `Attempt`
  `(reminder id, whether scheduleNotificationAsync succeeded)`; the
  source's `sendLocationNotification` catches its own errors, so the
  mutation after it always runs;
* the `BACKGROUND_LOCATION_TASK` handler (`backgroundLocationTask`);
* `NotificationService.requestPermissions`,
  `requestLocationPermissions`, `startLocationTracking` and
  `stopLocationTracking`, with the expo provider calls modelled by a
  `ProviderEnv` of oracles (`none` / a `Fails` flag meaning the awaited
  call threw, which the source catches).

`runTicks` drives a sequence of ticks; before each tick the due
`setTimeout` deletions are executed (`fireTimers`), matching the
JavaScript event loop, which runs every timer callback whose deadline
has passed before the later-arriving location callback.
-/

open Real in
/-- JavaScript's `Math.atan2(y, x)`: the angle of the point `(x, y)`,
piecewise by quadrant, with `atan2 0 0 = 0`. -/
noncomputable def atan2 (y x : ℝ) : ℝ :=
  if 0 < x then Real.arctan (y / x)
  else if x < 0 ∧ 0 ≤ y then Real.arctan (y / x) + π
  else if x < 0 ∧ y < 0 then Real.arctan (y / x) - π
  else if x = 0 ∧ 0 < y then π / 2
  else if x = 0 ∧ y < 0 then -(π / 2)
  else 0

open Real in
/-- `calculateDistance(lat1, lon1, lat2, lon2)` of the source: the
haversine great-circle distance in meters, Earth radius `R = 6371` km,
`R * c * 1000` with `c = 2 * atan2(sqrt a, sqrt (1 - a))`. -/
noncomputable def calculateDistance (lat1 lon1 lat2 lon2 : ℝ) : ℝ :=
  let R : ℝ := 6371
  let dLat := (lat2 - lat1) * (π / 180)
  let dLon := (lon2 - lon1) * (π / 180)
  let a :=
    Real.sin (dLat / 2) * Real.sin (dLat / 2) +
      Real.cos (lat1 * (π / 180)) * Real.cos (lat2 * (π / 180)) *
        Real.sin (dLon / 2) * Real.sin (dLon / 2)
  let c := 2 * atan2 (Real.sqrt a) (Real.sqrt (1 - a))
  R * c * 1000

open Real in
/-- Modelled from the spec's words, for comparison with the source's
`calculateDistance`: "6371000 * 2 * atan2(sqrt(a), sqrt(1-a)) where
a = sin^2(dLat/2) + cos(lat1) * cos(lat2) * sin^2(dLon/2) with angles
converted to radians". -/
noncomputable def haversineSpecDistance (lat1 lon1 lat2 lon2 : ℝ) : ℝ :=
  let dLat := (lat2 - lat1) * (π / 180)
  let dLon := (lon2 - lon1) * (π / 180)
  let a :=
    Real.sin (dLat / 2) ^ 2 +
      Real.cos (lat1 * (π / 180)) * Real.cos (lat2 * (π / 180)) *
        Real.sin (dLon / 2) ^ 2
  6371000 * (2 * atan2 (Real.sqrt a) (Real.sqrt (1 - a)))

/-- A latitude/longitude pair as used by the monitor (numeric fields
present).  Rationals stand for the JavaScript numbers. -/
structure Coords where
  latitude : ℚ
  longitude : ℚ
deriving DecidableEq

/-- A present (not `undefined`) coordinate field of a fetched reminder:
a genuine JavaScript number, or any other present value (`null`, a
boolean, a string, ...), recorded together with the number JavaScript
coerces it to inside `calculateDistance`'s arithmetic (`null` → 0,
`true` → 1, a numeric string → its value; `none` when the coercion
yields NaN, as for a non-numeric string). -/
inductive CoordValue where
  | num (q : ℚ)
  | nonNum (coerced : Option ℚ)
deriving DecidableEq

/-- The number a present coordinate value coerces to in arithmetic
(`none` = NaN). -/
def coerceNumber : CoordValue → Option ℚ
  | .num q => some q
  | .nonNum c => c

/-- The `location` record of a fetched reminder; either coordinate field
may be `undefined` (modelled as `none`).  A present field carries any
JavaScript value — the source's filter checks only `!== undefined`, so a
present non-numeric value passes it. -/
structure ReminderLocation where
  latitude : Option CoordValue
  longitude : Option CoordValue
deriving DecidableEq

/-- A fetched reminder record (interface `LocationReminder` of the
source); the whole `location` record may be absent. -/
structure LocationReminder where
  id : String
  title : String
  category : String
  isActive : Bool
  location : Option ReminderLocation
deriving DecidableEq

/-- The coerced numeric coordinates the arithmetic of
`calculateDistance` works on: `none` when the record or a field is
absent (such reminders never pass the filter) or when a present field
coerces to NaN — a NaN distance makes both the `<= 100` and the `> 200`
comparison false, so the loop body is a no-op for that reminder. -/
def reminderCoords (r : LocationReminder) : Option Coords :=
  match r.location with
  | none => none
  | some l =>
    match l.latitude, l.longitude with
    | some la, some lo =>
      match coerceNumber la, coerceNumber lo with
      | some qa, some qo => some ⟨qa, qo⟩
      | _, _ => none
    | _, _ => none

/-- The filter predicate of `checkNearbyReminders`:
`reminder.isActive && reminder.location !== undefined &&
reminder.location.latitude !== undefined &&
reminder.location.longitude !== undefined`.  Presence is all it checks:
a present non-numeric coordinate value passes. -/
def eligible (r : LocationReminder) : Bool :=
  match r.location with
  | none => false
  | some l => r.isActive && l.latitude.isSome && l.longitude.isSome

/-- One notification-dispatch attempt: the reminder id and whether the
schedule call succeeded (the source logs a failure and carries on). -/
abbrev Attempt := String × Bool

/-- The monitor's mutable state: the `triggeredReminders` set, the
pending `setTimeout` cooldown deletions `(reminder id, absolute firing
time in ms)`, and whether the background location task is registered. -/
structure MonitorState where
  triggered : Finset String
  timers : List (String × ℕ)
  taskRegistered : Bool
deriving DecidableEq

/-- The state at module load: empty set, no timers, no task. -/
def initState : MonitorState :=
  { triggered := ∅, timers := [], taskRegistered := false }

/-- The cooldown window of the source: `10 * 60 * 1000` ms. -/
def cooldownMs : ℕ := 10 * 60 * 1000

/-- Run every pending `setTimeout` deletion whose deadline has passed:
each due callback executes `triggeredReminders.delete(reminder.id)`. -/
def fireTimers (now : ℕ) (st : MonitorState) : MonitorState :=
  { st with
    triggered :=
      ((st.timers.filter (fun p => p.2 ≤ now)).map Prod.fst).foldl
        (fun s i => s.erase i) st.triggered,
    timers := st.timers.filter (fun p => ¬ p.2 ≤ now) }

/-- The per-reminder body of the `for` loop of `checkNearbyReminders`
(lines 90–103 of the source), given the computed distance `d`:

* `if (distance <= 100 && !triggeredReminders.has(reminder.id))`:
  dispatch a notification (recorded with the outcome of the schedule
  call), add the id, and schedule its deletion after `cooldownMs`;
* `if (distance > 200)`: delete the id. -/
def hysteresisStep (now : ℕ) (schedOk : String → Bool) (d : ℚ)
    (rid : String) (acc : MonitorState × List Attempt) :
    MonitorState × List Attempt :=
  let st := acc.1
  let fired :=
    if d ≤ 100 ∧ rid ∉ st.triggered then
      ({ st with triggered := insert rid st.triggered,
                 timers := st.timers ++ [(rid, now + cooldownMs)] },
       acc.2 ++ [(rid, schedOk rid)])
    else (st, acc.2)
  if 200 < d then
    ({ fired.1 with triggered := fired.1.triggered.erase rid }, fired.2)
  else fired

/-- The environment of one tick: the wall-clock time, the outcome of the
reminder fetch (`none` = any failure path), the computed-distance oracle
standing for `calculateDistance` at this tick's sample, and the outcome
of notification scheduling per reminder id. -/
structure TickEnv where
  now : ℕ
  fetch : Option (List LocationReminder)
  dist : Coords → Coords → ℚ
  schedOk : String → Bool

/-- One iteration of the `for` loop: look up the reminder's coordinates
(always present after the filter), compute its distance to the sample,
and run the hysteresis body. -/
def reminderStep (env : TickEnv) (loc : Coords)
    (acc : MonitorState × List Attempt) (r : LocationReminder) :
    MonitorState × List Attempt :=
  match reminderCoords r with
  | none => acc
  | some rc => hysteresisStep env.now env.schedOk (env.dist loc rc) r.id acc

/-- `checkNearbyReminders(currentLocation)`: fetch, filter to eligible
reminders, and run the hysteresis loop.  A failed fetch returns without
touching the state (the source's early `return` / `catch`).  Returns the
new state and the dispatch attempts of this tick. -/
def checkNearbyReminders (env : TickEnv) (loc : Coords)
    (st : MonitorState) : MonitorState × List Attempt :=
  match env.fetch with
  | none => (st, [])
  | some reminders =>
    let activeReminders := reminders.filter eligible
    activeReminders.foldl (reminderStep env loc) (st, [])

/-- The `BACKGROUND_LOCATION_TASK` handler: on `error`, return; else if
`data` is present take `locations[0]` and, when defined, run
`checkNearbyReminders` on it. -/
def backgroundLocationTask (env : TickEnv) (err : Bool)
    (data : Option (List Coords)) (st : MonitorState) :
    MonitorState × List Attempt :=
  if err then (st, [])
  else
    match data with
    | none => (st, [])
    | some locations =>
      match locations.head? with
      | none => (st, [])
      | some currentLocation => checkNearbyReminders env currentLocation st

/-- The outcomes of the expo provider calls made by the
`NotificationService` operations.  `none` (or a `Fails` flag) means the
awaited call threw; the permission fields carry the returned `status`
string otherwise.  `isTaskRegisteredAsync` itself answers from the
monitor state's `taskRegistered` flag when it does not fail. -/
structure ProviderEnv where
  notifExisting : Option String
  notifRequested : Option String
  fgStatus : Option String
  bgStatus : Option String
  isTaskRegisteredFails : Bool
  stopUpdatesResult : Option Unit
  startUpdatesResult : Option Unit

/-- `NotificationService.requestPermissions`: read the existing status,
request when not granted, and return whether the final status is
`granted`; any throw is caught and yields `false`. -/
def requestPermissions (env : ProviderEnv) : Bool :=
  match env.notifExisting with
  | none => false
  | some existingStatus =>
    if existingStatus = "granted" then true
    else
      match env.notifRequested with
      | none => false
      | some status => status = "granted"

/-- `NotificationService.requestLocationPermissions`: foreground then
background permission, both must be `granted`; any throw is caught and
yields `false`. -/
def requestLocationPermissions (env : ProviderEnv) : Bool :=
  match env.fgStatus with
  | none => false
  | some fg =>
    if fg = "granted" then
      match env.bgStatus with
      | none => false
      | some bg => bg = "granted"
    else false

/-- `NotificationService.startLocationTracking`: check both permission
flows, bail out with `false` if either fails; stop an already registered
task; register the background updates.  Every throw along the way is
caught by the surrounding `try`/`catch` and becomes `false`.  Returns
the boolean outcome and the state after the call. -/
def startLocationTracking (env : ProviderEnv) (st : MonitorState) :
    Bool × MonitorState :=
  let notificationPermission := requestPermissions env
  let locationPermission := requestLocationPermissions env
  if ¬ (notificationPermission ∧ locationPermission) then (false, st)
  else if env.isTaskRegisteredFails then (false, st)
  else if st.taskRegistered then
    match env.stopUpdatesResult with
    | none => (false, st)
    | some _ =>
      match env.startUpdatesResult with
      | none => (false, { st with taskRegistered := false })
      | some _ => (true, { st with taskRegistered := true })
  else
    match env.startUpdatesResult with
    | none => (false, st)
    | some _ => (true, { st with taskRegistered := true })

/-- `NotificationService.stopLocationTracking`: query registration, stop
updates when registered, then clear `triggeredReminders`.  A throw in
either awaited call is caught by the `catch` — and skips the clear.
Pending `setTimeout` deletions are not cancelled. -/
def stopLocationTracking (env : ProviderEnv) (st : MonitorState) :
    MonitorState :=
  if env.isTaskRegisteredFails then st
  else if st.taskRegistered then
    match env.stopUpdatesResult with
    | none => st
    | some _ => { st with taskRegistered := false, triggered := ∅ }
  else { st with triggered := ∅ }

/-- One delivered tick of the driver: environment plus the sample the
provider reports (already the first element of the batch). -/
structure TickCall where
  env : TickEnv
  loc : Coords

/-- Run a sequence of ticks from a state: before each tick the due
cooldown deletions fire, then `checkNearbyReminders` runs on the tick's
sample.  Accumulates every dispatch attempt. -/
def runTicks : List TickCall → MonitorState → MonitorState × List Attempt
  | [], st => (st, [])
  | tc :: rest, st =>
    let st1 := fireTimers tc.env.now st
    let out := checkNearbyReminders tc.env tc.loc st1
    let outRest := runTicks rest out.1
    (outRest.1, out.2 ++ outRest.2)

/-! ### Basic lemmas about the timer and hysteresis steps -/

theorem foldl_erase_mem {l : List String} {s : Finset String} {i : String}
    (h : i ∈ l.foldl (fun t j => t.erase j) s) : i ∈ s := by
  induction l generalizing s with
  | nil => simpa using h
  | cons j l ih =>
    simp only [List.foldl_cons] at h
    exact Finset.mem_of_mem_erase (ih h)

theorem foldl_erase_not_mem_of_not_mem {l : List String} {s : Finset String}
    {i : String} (h : i ∉ s) : i ∉ l.foldl (fun t j => t.erase j) s :=
  fun hmem => h (foldl_erase_mem hmem)

theorem foldl_erase_not_mem {l : List String} {s : Finset String} {i : String}
    (h : i ∈ l) : i ∉ l.foldl (fun t j => t.erase j) s := by
  induction l generalizing s with
  | nil => simp at h
  | cons j l ih =>
    simp only [List.foldl_cons]
    rcases List.mem_cons.mp h with hji | hl
    · subst hji
      by_cases hl' : i ∈ l
      · exact ih hl'
      · exact foldl_erase_not_mem_of_not_mem (Finset.not_mem_erase i s)
    · exact ih hl

theorem fireTimers_no_due {now : ℕ} {st : MonitorState}
    (h : ∀ p ∈ st.timers, ¬ p.2 ≤ now) : fireTimers now st = st := by
  unfold fireTimers
  have h1 : st.timers.filter (fun p => p.2 ≤ now) = [] := by
    rw [List.filter_eq_nil_iff]
    intro p hp
    simpa using h p hp
  have h2 : st.timers.filter (fun p => ¬ p.2 ≤ now) = st.timers := by
    rw [List.filter_eq_self]
    intro p hp
    simpa using h p hp
  rw [h1, h2]
  simp

theorem fireTimers_triggered_subset {now : ℕ} {st : MonitorState} {i : String}
    (h : i ∈ (fireTimers now st).triggered) : i ∈ st.triggered :=
  foldl_erase_mem h

theorem fireTimers_removes {now : ℕ} {st : MonitorState} {i : String} {T : ℕ}
    (hmem : (i, T) ∈ st.timers) (hT : T ≤ now) :
    i ∉ (fireTimers now st).triggered := by
  unfold fireTimers
  apply foldl_erase_not_mem
  simp only [List.mem_map, List.mem_filter]
  exact ⟨(i, T), ⟨hmem, by simpa using hT⟩, rfl⟩

theorem hysteresisStep_steady {now : ℕ} {schedOk : String → Bool} {d : ℚ}
    {rid : String} {acc : MonitorState × List Attempt}
    (hmem : rid ∈ acc.1.triggered) (hd : d ≤ 200) :
    hysteresisStep now schedOk d rid acc = acc := by
  simp only [hysteresisStep]
  split_ifs with h1 h2 h2
  · exact absurd hd (not_le.mpr h1)
  · exact absurd hd (not_le.mpr h1)
  · exact absurd hmem h2.2
  · rfl

theorem hysteresisStep_fires {now : ℕ} {schedOk : String → Bool} {d : ℚ}
    {rid : String} {acc : MonitorState × List Attempt}
    (hmem : rid ∉ acc.1.triggered) (hd : d ≤ 100) :
    hysteresisStep now schedOk d rid acc =
      ({ acc.1 with triggered := insert rid acc.1.triggered,
                    timers := acc.1.timers ++ [(rid, now + cooldownMs)] },
       acc.2 ++ [(rid, schedOk rid)]) := by
  simp only [hysteresisStep]
  split_ifs with h1 h2 h2
  · exact absurd h2.1 (by linarith)
  · exact absurd (And.intro hd hmem) h2
  · rfl
  · exact absurd (And.intro hd hmem) h2

theorem hysteresisStep_leaves {now : ℕ} {schedOk : String → Bool} {d : ℚ}
    {rid : String} {acc : MonitorState × List Attempt}
    (hd : 200 < d) :
    hysteresisStep now schedOk d rid acc =
      ({ acc.1 with triggered := acc.1.triggered.erase rid }, acc.2) := by
  simp only [hysteresisStep]
  split_ifs with h1
  · exact absurd h1.1 (by linarith)
  · rfl

/-! ### Single-reminder tick computations -/

theorem checkNearby_fetch_failed {env : TickEnv} {loc : Coords}
    {st : MonitorState} (h : env.fetch = none) :
    checkNearbyReminders env loc st = (st, []) := by
  unfold checkNearbyReminders
  rw [h]

theorem checkNearby_singleton {env : TickEnv} {loc : Coords}
    {st : MonitorState} {r : LocationReminder} {rc : Coords}
    (hf : env.fetch = some [r]) (he : eligible r = true)
    (hc : reminderCoords r = some rc) :
    checkNearbyReminders env loc st =
      hysteresisStep env.now env.schedOk (env.dist loc rc) r.id (st, []) := by
  unfold checkNearbyReminders
  rw [hf]
  simp [List.filter, he, reminderStep, hc]

theorem checkNearby_fires {env : TickEnv} {loc : Coords} {st : MonitorState}
    {r : LocationReminder} {rc : Coords}
    (hf : env.fetch = some [r]) (he : eligible r = true)
    (hc : reminderCoords r = some rc)
    (hmem : r.id ∉ st.triggered) (hd : env.dist loc rc ≤ 100) :
    checkNearbyReminders env loc st =
      ({ st with triggered := insert r.id st.triggered,
                 timers := st.timers ++ [(r.id, env.now + cooldownMs)] },
       [(r.id, env.schedOk r.id)]) := by
  rw [checkNearby_singleton hf he hc, hysteresisStep_fires hmem hd]
  simp

theorem checkNearby_steady {env : TickEnv} {loc : Coords} {st : MonitorState}
    {r : LocationReminder} {rc : Coords}
    (hf : env.fetch = some [r]) (he : eligible r = true)
    (hc : reminderCoords r = some rc)
    (hmem : r.id ∈ st.triggered) (hd : env.dist loc rc ≤ 200) :
    checkNearbyReminders env loc st = (st, []) := by
  rw [checkNearby_singleton hf he hc, hysteresisStep_steady hmem hd]

theorem checkNearby_leaves {env : TickEnv} {loc : Coords} {st : MonitorState}
    {r : LocationReminder} {rc : Coords}
    (hf : env.fetch = some [r]) (he : eligible r = true)
    (hc : reminderCoords r = some rc)
    (hd : 200 < env.dist loc rc) :
    checkNearbyReminders env loc st =
      ({ st with triggered := st.triggered.erase r.id }, []) := by
  rw [checkNearby_singleton hf he hc, hysteresisStep_leaves hd]

/-! ### Preservation lemmas for the hysteresis fold -/

theorem hysteresisStep_other {now : ℕ} {schedOk : String → Bool} {d : ℚ}
    {rid : String} {acc : MonitorState × List Attempt} {i : String}
    (h : rid ≠ i) :
    (∀ b : Bool, ((i, b) ∈ (hysteresisStep now schedOk d rid acc).2 ↔
        (i, b) ∈ acc.2)) ∧
    ((i ∈ (hysteresisStep now schedOk d rid acc).1.triggered) ↔
        i ∈ acc.1.triggered) := by
  simp only [hysteresisStep]
  split_ifs with h1 h2 h2 <;>
    simp [Finset.mem_insert, Finset.mem_erase, h, Ne.symm h, Prod.ext_iff]

theorem reminderStep_other {env : TickEnv} {loc : Coords}
    {acc : MonitorState × List Attempt} {r : LocationReminder} {i : String}
    (h : r.id ≠ i) :
    (∀ b : Bool, ((i, b) ∈ (reminderStep env loc acc r).2 ↔ (i, b) ∈ acc.2)) ∧
    ((i ∈ (reminderStep env loc acc r).1.triggered) ↔ i ∈ acc.1.triggered) := by
  unfold reminderStep
  cases reminderCoords r with
  | none => simp
  | some rc => exact hysteresisStep_other h

theorem foldl_untouched {env : TickEnv} {loc : Coords}
    {l : List LocationReminder} {i : String}
    (hl : ∀ r ∈ l, r.id ≠ i) (acc : MonitorState × List Attempt) :
    (∀ b : Bool, ((i, b) ∈ (l.foldl (reminderStep env loc) acc).2 ↔
        (i, b) ∈ acc.2)) ∧
    ((i ∈ (l.foldl (reminderStep env loc) acc).1.triggered) ↔
        i ∈ acc.1.triggered) := by
  induction l generalizing acc with
  | nil => simp
  | cons r l ih =>
    have hr : r.id ≠ i := hl r (List.mem_cons_self r l)
    have hl' : ∀ r' ∈ l, r'.id ≠ i := fun r' h' => hl r' (List.mem_cons_of_mem r h')
    simp only [List.foldl_cons]
    obtain ⟨ha, ht⟩ := ih hl' (reminderStep env loc acc r)
    obtain ⟨ha', ht'⟩ := @reminderStep_other env loc acc r i hr
    exact ⟨fun b => (ha b).trans (ha' b), ht.trans ht'⟩

theorem foldl_suppressed {env : TickEnv} {loc : Coords}
    {l : List LocationReminder} {i : String}
    (acc : MonitorState × List Attempt)
    (hin : i ∈ acc.1.triggered)
    (hd : ∀ r ∈ l, r.id = i → ∀ rc, reminderCoords r = some rc →
      env.dist loc rc ≤ 200) :
    (∀ b : Bool, ((i, b) ∈ (l.foldl (reminderStep env loc) acc).2 ↔
        (i, b) ∈ acc.2)) ∧
    i ∈ (l.foldl (reminderStep env loc) acc).1.triggered := by
  induction l generalizing acc with
  | nil => exact ⟨fun b => Iff.rfl, hin⟩
  | cons r l ih =>
    simp only [List.foldl_cons]
    have hd' : ∀ r' ∈ l, r'.id = i → ∀ rc, reminderCoords r' = some rc →
        env.dist loc rc ≤ 200 :=
      fun r' h' => hd r' (List.mem_cons_of_mem r h')
    by_cases hid : r.id = i
    · have hstep : reminderStep env loc acc r = acc := by
        unfold reminderStep
        cases hc : reminderCoords r with
        | none => rfl
        | some rc =>
          have := hd r (List.mem_cons_self r l) hid rc hc
          rw [hid]
          exact hysteresisStep_steady hin this
      rw [hstep]
      exact ih acc hin hd'
    · obtain ⟨ha', ht'⟩ := @reminderStep_other env loc acc r i hid
      obtain ⟨ha, ht⟩ := ih (reminderStep env loc acc r) (ht'.mpr hin) hd'
      exact ⟨fun b => (ha b).trans (ha' b), ht⟩

theorem hysteresisStep_attempt_cases {now : ℕ} {schedOk : String → Bool}
    {d : ℚ} {rid : String} {acc : MonitorState × List Attempt} :
    (hysteresisStep now schedOk d rid acc).2 = acc.2 ∨
    ((hysteresisStep now schedOk d rid acc).2 = acc.2 ++ [(rid, schedOk rid)] ∧
      rid ∈ (hysteresisStep now schedOk d rid acc).1.triggered) := by
  simp only [hysteresisStep]
  split_ifs with h1 h2 h2
  · exact absurd h2.1 (by linarith)
  · left; rfl
  · right
    exact ⟨rfl, Finset.mem_insert_self rid _⟩
  · left; rfl

theorem foldl_attempts_triggered {env : TickEnv} {loc : Coords}
    {l : List LocationReminder}
    (hnodup : (l.map (fun r => r.id)).Nodup)
    (acc : MonitorState × List Attempt) (p : Attempt)
    (hp : p ∈ (l.foldl (reminderStep env loc) acc).2) :
    p ∈ acc.2 ∨ p.1 ∈ (l.foldl (reminderStep env loc) acc).1.triggered := by
  induction l generalizing acc with
  | nil => exact Or.inl hp
  | cons r l ih =>
    simp only [List.foldl_cons] at hp ⊢
    have hnodup' : (l.map (fun r => r.id)).Nodup := (List.nodup_cons.mp hnodup).2
    have hnotmem : r.id ∉ l.map (fun r => r.id) := (List.nodup_cons.mp hnodup).1
    rcases ih hnodup' (reminderStep env loc acc r) hp with hstep | htrig
    · cases hc : reminderCoords r with
      | none =>
        have hr : reminderStep env loc acc r = acc := by
          unfold reminderStep
          rw [hc]
        rw [hr] at hstep
        exact Or.inl hstep
      | some rc =>
        have hr : reminderStep env loc acc r =
            hysteresisStep env.now env.schedOk (env.dist loc rc) r.id acc := by
          unfold reminderStep
          rw [hc]
        rcases @hysteresisStep_attempt_cases env.now env.schedOk
            (env.dist loc rc) r.id acc with hcase | hcase
        · rw [hr, hcase] at hstep
          exact Or.inl hstep
        · rw [hr, hcase.1] at hstep
          rcases List.mem_append.mp hstep with hold | hnew
          · exact Or.inl hold
          · have hpr : p = (r.id, env.schedOk r.id) := by simpa using hnew
            right
            have hids : ∀ r' ∈ l, r'.id ≠ p.1 := by
              intro r' h' heq
              have hrid : r'.id = r.id := by rw [heq, hpr]
              apply hnotmem
              rw [← hrid]
              exact List.mem_map_of_mem (fun r => r.id) h'
            have hiff := (@foldl_untouched env loc l p.1 hids
              (reminderStep env loc acc r)).2
            apply hiff.mpr
            rw [hr, hpr]
            exact hcase.2
    · exact Or.inr htrig

theorem hysteresisStep_fst_ext {now : ℕ} {f g : String → Bool} {d : ℚ}
    {rid : String} {acc acc' : MonitorState × List Attempt}
    (h : acc'.1 = acc.1) :
    (hysteresisStep now f d rid acc').1 = (hysteresisStep now g d rid acc).1 := by
  simp only [hysteresisStep, h]
  split_ifs <;> rfl

theorem foldl_fst_schedOk {env env' : TickEnv} {loc : Coords}
    {l : List LocationReminder}
    (hnow : env'.now = env.now) (hdist : env'.dist = env.dist)
    {acc acc' : MonitorState × List Attempt} (h : acc'.1 = acc.1) :
    (l.foldl (reminderStep env' loc) acc').1 =
      (l.foldl (reminderStep env loc) acc).1 := by
  induction l generalizing acc acc' with
  | nil => exact h
  | cons r l ih =>
    simp only [List.foldl_cons]
    apply ih
    unfold reminderStep
    cases reminderCoords r with
    | none => exact h
    | some rc =>
      rw [hnow, hdist]
      exact hysteresisStep_fst_ext h

/-! ### Multi-tick runs -/

theorem runTicks_steady {r : LocationReminder} {rc : Coords}
    (he : eligible r = true) (hc : reminderCoords r = some rc)
    {ticks : List TickCall} {st : MonitorState}
    (hin : r.id ∈ st.triggered)
    (h : ∀ tc ∈ ticks, tc.env.fetch = some [r] ∧ tc.env.dist tc.loc rc ≤ 200 ∧
      ∀ p ∈ st.timers, ¬ p.2 ≤ tc.env.now) :
    runTicks ticks st = (st, []) := by
  induction ticks with
  | nil => rfl
  | cons tc rest ih =>
    obtain ⟨hf, hd, ht⟩ := h tc (List.mem_cons_self tc rest)
    have h1 : fireTimers tc.env.now st = st := fireTimers_no_due ht
    have h2 : checkNearbyReminders tc.env tc.loc st = (st, []) :=
      checkNearby_steady hf he hc hin hd
    have h3 : runTicks rest st = (st, []) :=
      ih fun tc' h' => h tc' (List.mem_cons_of_mem tc h')
    simp only [runTicks, h1, h2, h3]
    simp

/-- Claim C2: after a notification for a reminder has been dispatched (the
first tick at a distance within the 100 m trigger radius, from a fresh
state), every subsequent tick at a distance of at most 200 m and a time
before the 10-minute cooldown expiry dispatches nothing further: the run
yields exactly the one initial dispatch.  Fixed 50 m ticks and 120–180 m
dead-zone oscillation are instances. -/
theorem trigger_idempotence_one_dispatch
    {r : LocationReminder} {rc : Coords} {e : TickEnv} {l0 : Coords}
    {rest : List TickCall}
    (he : eligible r = true) (hc : reminderCoords r = some rc)
    (hf : e.fetch = some [r]) (hd : e.dist l0 rc ≤ 100)
    (hrest : ∀ tc ∈ rest, tc.env.fetch = some [r] ∧
      tc.env.dist tc.loc rc ≤ 200 ∧ tc.env.now < e.now + cooldownMs) :
    (runTicks (⟨e, l0⟩ :: rest) initState).2 = [(r.id, e.schedOk r.id)] := by
  have h1 : fireTimers e.now initState = initState := rfl
  have h2 := @checkNearby_fires e l0 initState r rc hf he hc
    (by simp [initState]) hd
  have h3 : runTicks rest
      ({ initState with
         triggered := insert r.id initState.triggered,
         timers := initState.timers ++ [(r.id, e.now + cooldownMs)] }) =
      ({ initState with
         triggered := insert r.id initState.triggered,
         timers := initState.timers ++ [(r.id, e.now + cooldownMs)] }, []) := by
    apply runTicks_steady he hc (Finset.mem_insert_self r.id _)
    intro tc htc
    obtain ⟨hf', hd', hT⟩ := hrest tc htc
    refine ⟨hf', hd', ?_⟩
    intro p hp
    simp only [initState, List.nil_append, List.mem_singleton] at hp
    subst hp
    simpa using Nat.not_le.mpr hT
  simp only [runTicks, h1, h2, h3]
  simp

theorem fireTimers_triggered_eq_empty {now : ℕ} {st : MonitorState}
    (h : st.triggered = ∅) : (fireTimers now st).triggered = ∅ := by
  apply Finset.eq_empty_iff_forall_not_mem.mpr
  intro x hx
  have hmem := fireTimers_triggered_subset hx
  rw [h] at hmem
  exact absurd hmem (Finset.not_mem_empty x)

/-- Claim C1: for an active reminder with a location, ticks at 50 m, then
250 m, then 50 m dispatch exactly two notifications: the 250 m tick
removes the id from the triggered set immediately (whatever the pending
cooldown timer does), so the return inside 100 m fires again. -/
theorem rearm_after_leaving_two_dispatches
    {r : LocationReminder} {rc : Coords} {e1 e2 e3 : TickEnv}
    {l1 l2 l3 : Coords}
    (he : eligible r = true) (hc : reminderCoords r = some rc)
    (hf1 : e1.fetch = some [r]) (hf2 : e2.fetch = some [r])
    (hf3 : e3.fetch = some [r])
    (hd1 : e1.dist l1 rc = 50) (hd2 : e2.dist l2 rc = 250)
    (hd3 : e3.dist l3 rc = 50) :
    (runTicks [⟨e1, l1⟩, ⟨e2, l2⟩, ⟨e3, l3⟩] initState).2 =
      [(r.id, e1.schedOk r.id), (r.id, e3.schedOk r.id)] := by
  have h1 : fireTimers e1.now initState = initState := rfl
  have h2 := @checkNearby_fires e1 l1 initState r rc hf1 he hc
    (by simp [initState]) (by rw [hd1]; norm_num)
  have h3 := @checkNearby_leaves e2 l2
    (fireTimers e2.now
      ({ initState with
         triggered := insert r.id initState.triggered,
         timers := initState.timers ++ [(r.id, e1.now + cooldownMs)] }))
    r rc hf2 he hc (by rw [hd2]; norm_num)
  have h4 : (fireTimers e2.now
      ({ initState with
         triggered := insert r.id initState.triggered,
         timers := initState.timers ++ [(r.id, e1.now + cooldownMs)] })).triggered.erase
        r.id = ∅ := by
    apply Finset.eq_empty_iff_forall_not_mem.mpr
    intro x hx
    have hx1 : x ≠ r.id := (Finset.mem_erase.mp hx).1
    have hx2 := fireTimers_triggered_subset (Finset.mem_erase.mp hx).2
    simp only [initState, Finset.mem_insert] at hx2
    rcases hx2 with h | h
    · exact hx1 h
    · exact absurd h (Finset.not_mem_empty x)
  have h5 : (fireTimers e3.now
      ({ fireTimers e2.now
          ({ initState with
             triggered := insert r.id initState.triggered,
             timers := initState.timers ++ [(r.id, e1.now + cooldownMs)] }) with
         triggered := (fireTimers e2.now
          ({ initState with
             triggered := insert r.id initState.triggered,
             timers := initState.timers ++ [(r.id, e1.now + cooldownMs)] })).triggered.erase
            r.id })).triggered = ∅ :=
    fireTimers_triggered_eq_empty h4
  have h6 := @checkNearby_fires e3 l3
    (fireTimers e3.now
      ({ fireTimers e2.now
          ({ initState with
             triggered := insert r.id initState.triggered,
             timers := initState.timers ++ [(r.id, e1.now + cooldownMs)] }) with
         triggered := (fireTimers e2.now
          ({ initState with
             triggered := insert r.id initState.triggered,
             timers := initState.timers ++ [(r.id, e1.now + cooldownMs)] })).triggered.erase
            r.id }))
    r rc hf3 he hc (by rw [h5]; exact Finset.not_mem_empty _)
    (by rw [hd3]; norm_num)
  simp only [runTicks, h1, h2, h3, h6]
  simp

/-- Witness for Claim C1 at a concrete reminder and tick sequence. -/
theorem rearm_after_leaving_two_dispatches_witness :
    (runTicks
      [⟨⟨0, some [⟨"r1", "t", "c", true, some ⟨some (CoordValue.num 0), some (CoordValue.num 0)⟩⟩],
          fun _ _ => 50, fun _ => true⟩, ⟨0, 0⟩⟩,
       ⟨⟨30000, some [⟨"r1", "t", "c", true, some ⟨some (CoordValue.num 0), some (CoordValue.num 0)⟩⟩],
          fun _ _ => 250, fun _ => true⟩, ⟨0, 0⟩⟩,
       ⟨⟨60000, some [⟨"r1", "t", "c", true, some ⟨some (CoordValue.num 0), some (CoordValue.num 0)⟩⟩],
          fun _ _ => 50, fun _ => true⟩, ⟨0, 0⟩⟩] initState).2 =
      [("r1", true), ("r1", true)] :=
  @rearm_after_leaving_two_dispatches
    ⟨"r1", "t", "c", true, some ⟨some (CoordValue.num 0), some (CoordValue.num 0)⟩⟩ ⟨0, 0⟩ _ _ _ _ _ _
    rfl rfl rfl rfl rfl rfl rfl rfl

/-- Witness for Claim C2: a 50 m trigger followed by a dead-zone tick at
180 m within the cooldown window dispatches exactly once. -/
theorem trigger_idempotence_one_dispatch_witness :
    (runTicks
      [⟨⟨0, some [⟨"r1", "t", "c", true, some ⟨some (CoordValue.num 0), some (CoordValue.num 0)⟩⟩],
          fun _ _ => 50, fun _ => true⟩, ⟨0, 0⟩⟩,
       ⟨⟨30000, some [⟨"r1", "t", "c", true, some ⟨some (CoordValue.num 0), some (CoordValue.num 0)⟩⟩],
          fun _ _ => 180, fun _ => true⟩, ⟨0, 0⟩⟩] initState).2 =
      [("r1", true)] :=
  @trigger_idempotence_one_dispatch
    ⟨"r1", "t", "c", true, some ⟨some (CoordValue.num 0), some (CoordValue.num 0)⟩⟩ ⟨0, 0⟩ _ _ _
    rfl rfl rfl (by norm_num)
    (by
      intro tc htc
      fin_cases htc
      exact ⟨rfl, by norm_num, by norm_num [cooldownMs]⟩)


/-- Counterexample to Claim C3: the concrete run 50 m at t=0 (dispatch,
cooldown pending at t=600000), 250 m at t=100000 (visit ends), 50 m at
t=200000 (second visit: dispatch, its own cooldown pending at t=800000),
150 m at t=600000.  Before the fourth tick the earlier visit's timer
fires and deletes the id even though a notification was dispatched in
the current visit, the distance never exceeded 200 m since, and the
current visit's cooldown (until t=800000 > 600000) has not expired: the
id, present after three ticks, is gone after the fourth — refuting the
claimed if-and-only-if invariant and in particular the claim that a
stale expiry never removes a re-added id. -/
theorem stale_cooldown_timer_counterexample :
    (runTicks
      [⟨⟨0, some [⟨"r1", "t", "c", true, some ⟨some (CoordValue.num 0), some (CoordValue.num 0)⟩⟩],
          fun _ _ => 50, fun _ => true⟩, ⟨0, 0⟩⟩,
       ⟨⟨100000, some [⟨"r1", "t", "c", true, some ⟨some (CoordValue.num 0), some (CoordValue.num 0)⟩⟩],
          fun _ _ => 250, fun _ => true⟩, ⟨0, 0⟩⟩,
       ⟨⟨200000, some [⟨"r1", "t", "c", true, some ⟨some (CoordValue.num 0), some (CoordValue.num 0)⟩⟩],
          fun _ _ => 50, fun _ => true⟩, ⟨0, 0⟩⟩] initState).1.triggered = {"r1"} ∧
    (runTicks
      [⟨⟨0, some [⟨"r1", "t", "c", true, some ⟨some (CoordValue.num 0), some (CoordValue.num 0)⟩⟩],
          fun _ _ => 50, fun _ => true⟩, ⟨0, 0⟩⟩,
       ⟨⟨100000, some [⟨"r1", "t", "c", true, some ⟨some (CoordValue.num 0), some (CoordValue.num 0)⟩⟩],
          fun _ _ => 250, fun _ => true⟩, ⟨0, 0⟩⟩,
       ⟨⟨200000, some [⟨"r1", "t", "c", true, some ⟨some (CoordValue.num 0), some (CoordValue.num 0)⟩⟩],
          fun _ _ => 50, fun _ => true⟩, ⟨0, 0⟩⟩,
       ⟨⟨600000, some [⟨"r1", "t", "c", true, some ⟨some (CoordValue.num 0), some (CoordValue.num 0)⟩⟩],
          fun _ _ => 150, fun _ => true⟩, ⟨0, 0⟩⟩] initState).1.triggered = ∅ ∧
    (runTicks
      [⟨⟨0, some [⟨"r1", "t", "c", true, some ⟨some (CoordValue.num 0), some (CoordValue.num 0)⟩⟩],
          fun _ _ => 50, fun _ => true⟩, ⟨0, 0⟩⟩,
       ⟨⟨100000, some [⟨"r1", "t", "c", true, some ⟨some (CoordValue.num 0), some (CoordValue.num 0)⟩⟩],
          fun _ _ => 250, fun _ => true⟩, ⟨0, 0⟩⟩,
       ⟨⟨200000, some [⟨"r1", "t", "c", true, some ⟨some (CoordValue.num 0), some (CoordValue.num 0)⟩⟩],
          fun _ _ => 50, fun _ => true⟩, ⟨0, 0⟩⟩,
       ⟨⟨600000, some [⟨"r1", "t", "c", true, some ⟨some (CoordValue.num 0), some (CoordValue.num 0)⟩⟩],
          fun _ _ => 150, fun _ => true⟩, ⟨0, 0⟩⟩] initState).2 =
      [("r1", true), ("r1", true)] ∧
    600000 < 200000 + cooldownMs := by decide

/-- Claim C3 as amended: a reminder id leaves the triggered set not only
when a tick exceeds the 200 m re-arm radius or when the visit's own
cooldown expires, but whenever ANY pending cooldown deletion for that id
fires — the `setTimeout` callback deletes by id alone, so an expiry
scheduled during an earlier visit removes an id that was re-added for a
later visit, before that later visit's cooldown has elapsed. -/
theorem stale_cooldown_timer_removes_rearmed_id
    {st : MonitorState} {now : ℕ} {i : String} {T : ℕ}
    (hmem : (i, T) ∈ st.timers) (hT : T ≤ now) :
    i ∉ (fireTimers now st).triggered :=
  fireTimers_removes hmem hT

/-- Witness for the amended Claim C3: a state holding a re-added id and
a stale timer that is due. -/
theorem stale_cooldown_timer_removes_rearmed_id_witness :
    ("r1", 600000) ∈
      (MonitorState.mk {"r1"} [("r1", 600000), ("r1", 800000)] false).timers ∧
    600000 ≤ 600000 ∧
    "r1" ∉ (fireTimers 600000
      (MonitorState.mk {"r1"} [("r1", 600000), ("r1", 800000)] false)).triggered :=
  ⟨by decide, by decide,
    @stale_cooldown_timer_removes_rearmed_id
      (MonitorState.mk {"r1"} [("r1", 600000), ("r1", 800000)] false)
      600000 "r1" 600000 (by decide) (by decide)⟩

theorem eligible_eq_false_iff (r : LocationReminder) :
    eligible r = false ↔
      (r.isActive = false ∨ r.location = none ∨
        ∃ l, r.location = some l ∧ (l.latitude = none ∨ l.longitude = none)) := by
  unfold eligible
  cases hl : r.location with
  | none => simp
  | some l =>
    cases ha : r.isActive <;>
      cases hla : l.latitude <;>
        cases hlo : l.longitude <;>
          simp [hl, ha, hla, hlo]

theorem reminderStep_coords_none {env : TickEnv} {loc : Coords}
    {acc : MonitorState × List Attempt} {r : LocationReminder}
    (h : reminderCoords r = none) : reminderStep env loc acc r = acc := by
  unfold reminderStep
  rw [h]

theorem foldl_untouched_weak {env : TickEnv} {loc : Coords}
    {l : List LocationReminder} {i : String}
    (hl : ∀ r ∈ l, r.id ≠ i ∨ reminderCoords r = none)
    (acc : MonitorState × List Attempt) :
    (∀ b : Bool, ((i, b) ∈ (l.foldl (reminderStep env loc) acc).2 ↔
        (i, b) ∈ acc.2)) ∧
    ((i ∈ (l.foldl (reminderStep env loc) acc).1.triggered) ↔
        i ∈ acc.1.triggered) := by
  induction l generalizing acc with
  | nil => simp
  | cons r l ih =>
    have hl' : ∀ r' ∈ l, r'.id ≠ i ∨ reminderCoords r' = none :=
      fun r' h' => hl r' (List.mem_cons_of_mem r h')
    simp only [List.foldl_cons]
    rcases hl r (List.mem_cons_self r l) with hr | hr
    · obtain ⟨ha, ht⟩ := ih hl' (reminderStep env loc acc r)
      obtain ⟨ha', ht'⟩ := @reminderStep_other env loc acc r i hr
      exact ⟨fun b => (ha b).trans (ha' b), ht.trans ht'⟩
    · rw [reminderStep_coords_none hr]
      exact ih hl' acc

theorem checkNearby_ineligible_id {env : TickEnv} {loc : Coords}
    {st : MonitorState} {i : String}
    (h : ∀ rems, env.fetch = some rems → ∀ r ∈ rems, r.id = i →
      eligible r = false ∨ reminderCoords r = none) :
    (∀ b : Bool, ((i, b) : Attempt) ∉ (checkNearbyReminders env loc st).2) ∧
    ((i ∈ (checkNearbyReminders env loc st).1.triggered) ↔ i ∈ st.triggered) := by
  simp only [checkNearbyReminders]
  cases hf : env.fetch with
  | none => simp
  | some rems =>
    have hids : ∀ r ∈ rems.filter eligible,
        r.id ≠ i ∨ reminderCoords r = none := by
      intro r hr
      by_cases heq : r.id = i
      · rcases h rems hf r (List.mem_of_mem_filter hr) heq with he | hcn
        · have h1 : eligible r = true := (List.mem_filter.mp hr).2
          rw [he] at h1
          exact absurd h1 (by simp)
        · exact Or.inr hcn
      · exact Or.inl heq
    obtain ⟨ha, ht⟩ :=
      @foldl_untouched_weak env loc (rems.filter eligible) i hids (st, [])
    constructor
    · intro b hb
      have hmem := (ha b).mp hb
      simp at hmem
    · exact ht

theorem reminderCoords_none_of_nan {r : LocationReminder}
    {l : ReminderLocation} {la lo : CoordValue}
    (hl : r.location = some l) (hla : l.latitude = some la)
    (hlo : l.longitude = some lo)
    (hc : coerceNumber la = none ∨ coerceNumber lo = none) :
    reminderCoords r = none := by
  rcases hc with hc | hc
  · simp [reminderCoords, hl, hla, hlo, hc]
  · rcases hca : coerceNumber la with _ | qa <;>
      simp [reminderCoords, hl, hla, hlo, hca, hc]

/-- Counterexample to Claim C5: a present non-numeric coordinate — here
a value such as `null` that JavaScript coerces to 0 — passes the
source's `!== undefined` filter; with the sample 50 m from the coerced
point, the tick dispatches a notification for the reminder and adds its
id to the triggered set, so a non-numeric coordinate does NOT protect
against triggering. -/
theorem non_numeric_coordinate_triggers :
    (checkNearbyReminders
      (TickEnv.mk 0
        (some [⟨"r1", "t", "c", true,
          some ⟨some (CoordValue.nonNum (some 0)),
                some (CoordValue.nonNum (some 0))⟩⟩])
        (fun _ _ => 50) (fun _ => true)) ⟨0, 0⟩ initState).2 =
      [("r1", true)] ∧
    "r1" ∈ (checkNearbyReminders
      (TickEnv.mk 0
        (some [⟨"r1", "t", "c", true,
          some ⟨some (CoordValue.nonNum (some 0)),
                some (CoordValue.nonNum (some 0))⟩⟩])
        (fun _ _ => 50) (fun _ => true)) ⟨0, 0⟩ initState).1.triggered := by
  decide

/-- Claim C5 as amended: a fetched reminder that is inactive, lacks the
location record, or whose latitude or longitude is absent (undefined),
or whose present coordinate coerces to NaN (a non-numeric string, say),
never produces a dispatch attempt for its id and never causes its id to
enter the triggered set, on any run of ticks; a present non-numeric
coordinate that coerces to a number, however, passes the filter and is
treated as that number (see the counterexample). -/
theorem undefined_or_nan_reminders_never_trigger
    {ticks : List TickCall} {i : String}
    (h : ∀ tc ∈ ticks, ∀ rems, tc.env.fetch = some rems → ∀ r ∈ rems,
      r.id = i →
      (r.isActive = false ∨ r.location = none ∨
        ∃ l, r.location = some l ∧
          (l.latitude = none ∨ l.longitude = none ∨
            ∃ la lo, l.latitude = some la ∧ l.longitude = some lo ∧
              (coerceNumber la = none ∨ coerceNumber lo = none))))
    (st : MonitorState) :
    (∀ b : Bool, ((i, b) : Attempt) ∉ (runTicks ticks st).2) ∧
    ((i ∈ (runTicks ticks st).1.triggered) → i ∈ st.triggered) := by
  induction ticks generalizing st with
  | nil =>
    constructor
    · intro b hb
      simp [runTicks] at hb
    · intro hmem
      simpa [runTicks] using hmem
  | cons tc rest ih =>
    have hh : ∀ rems, tc.env.fetch = some rems → ∀ r ∈ rems, r.id = i →
        eligible r = false ∨ reminderCoords r = none := by
      intro rems hf r hr heq
      rcases h tc (List.mem_cons_self tc rest) rems hf r hr heq with
        h1 | h1 | ⟨l, hl, h2⟩
      · exact Or.inl ((eligible_eq_false_iff r).mpr (Or.inl h1))
      · exact Or.inl ((eligible_eq_false_iff r).mpr (Or.inr (Or.inl h1)))
      · rcases h2 with h2 | h2 | ⟨la, lo, hla, hlo, hc⟩
        · exact Or.inl ((eligible_eq_false_iff r).mpr
            (Or.inr (Or.inr ⟨l, hl, Or.inl h2⟩)))
        · exact Or.inl ((eligible_eq_false_iff r).mpr
            (Or.inr (Or.inr ⟨l, hl, Or.inr h2⟩)))
        · exact Or.inr (reminderCoords_none_of_nan hl hla hlo hc)
    obtain ⟨ha1, ht1⟩ :=
      @checkNearby_ineligible_id tc.env tc.loc (fireTimers tc.env.now st) i hh
    obtain ⟨ha2, ht2⟩ := ih (fun tc' h' => h tc' (List.mem_cons_of_mem tc h'))
      ((checkNearbyReminders tc.env tc.loc (fireTimers tc.env.now st)).1)
    constructor
    · intro b hb
      simp only [runTicks] at hb
      rcases List.mem_append.mp hb with h1 | h2
      · exact ha1 b h1
      · exact ha2 b h2
    · intro hmem
      simp only [runTicks] at hmem
      exact fireTimers_triggered_subset (ht1.mp (ht2 hmem))

/-- Witness for the amended Claim C5: a latitude that coerces to NaN
(for instance a non-numeric string) never triggers even 10 m away. -/
theorem undefined_or_nan_reminders_never_trigger_witness :
    (∀ b : Bool, (("r1", b) : Attempt) ∉
      (runTicks
        [⟨⟨0, some [⟨"r1", "t", "c", true,
            some ⟨some (CoordValue.nonNum none), some (CoordValue.num 0)⟩⟩],
            fun _ _ => 10, fun _ => true⟩, ⟨0, 0⟩⟩] initState).2) ∧
    (("r1" ∈
      (runTicks
        [⟨⟨0, some [⟨"r1", "t", "c", true,
            some ⟨some (CoordValue.nonNum none), some (CoordValue.num 0)⟩⟩],
            fun _ _ => 10, fun _ => true⟩, ⟨0, 0⟩⟩] initState).1.triggered) →
      "r1" ∈ initState.triggered) :=
  undefined_or_nan_reminders_never_trigger
    (by
      intro tc htc
      fin_cases htc
      intro rems hf r hr heq
      cases hf
      rcases List.mem_singleton.mp hr with rfl
      exact Or.inr (Or.inr ⟨_, rfl, Or.inr (Or.inr
        ⟨_, _, rfl, rfl, Or.inl rfl⟩)⟩))
    initState

/-- Claim C6: a tick whose reminder fetch fails (non-success response, or
a fetch / JSON exception — all modelled by `fetch = none`, ending in the
early return or the catch) dispatches nothing and returns the state
exactly as it was: triggered set, timers and the task-registration flag
are untouched, and the handler, being a total function, lets nothing
escape. -/
theorem fetch_failure_tick_noop {env : TickEnv} {loc : Coords}
    {st : MonitorState} (h : env.fetch = none) :
    checkNearbyReminders env loc st = (st, []) :=
  checkNearby_fetch_failed h

/-- Witness for Claim C6 at a non-trivial state. -/
theorem fetch_failure_tick_noop_witness :
    (TickEnv.mk 0 none (fun _ _ => 0) (fun _ => true)).fetch = none ∧
    checkNearbyReminders (TickEnv.mk 0 none (fun _ _ => 0) (fun _ => true))
      ⟨0, 0⟩ (MonitorState.mk {"a"} [("a", 5)] true) =
      (MonitorState.mk {"a"} [("a", 5)] true, []) :=
  ⟨rfl, fetch_failure_tick_noop rfl⟩

/-- Claim C10: the background task handler evaluates only the first
location sample of a delivery — the result equals a
`checkNearbyReminders` run on that sample alone, whatever the rest of
the batch holds — and a delivery with a task error, no data, or an empty
sample list returns immediately: no dispatch, no state change (and, the
result being independent of `env.fetch`, no fetch). -/
theorem background_task_first_sample_only :
    (∀ (env : TickEnv) (st : MonitorState) (l : Coords) (rest : List Coords),
      backgroundLocationTask env false (some (l :: rest)) st =
        checkNearbyReminders env l st) ∧
    (∀ (env : TickEnv) (st : MonitorState) (data : Option (List Coords)),
      backgroundLocationTask env true data st = (st, [])) ∧
    (∀ (env : TickEnv) (st : MonitorState),
      backgroundLocationTask env false none st = (st, [])) ∧
    (∀ (env : TickEnv) (st : MonitorState),
      backgroundLocationTask env false (some []) st = (st, [])) := by
  refine ⟨?_, ?_, ?_, ?_⟩ <;> intros <;> rfl

/-- Claim C9: when a trigger fires, the triggered-set mutation does not
depend on whether the notification scheduling succeeded (the failure is
caught inside `sendLocationNotification`); every attempted id is in the
triggered set after the tick, so — distances staying within 200 m and no
timer interfering — a later tick attempts nothing for that id again
within the visit. -/
theorem dispatch_failure_not_rolled_back {env : TickEnv} {loc : Coords}
    {st : MonitorState} {rems : List LocationReminder}
    (hf : env.fetch = some rems)
    (hnodup : ((rems.filter eligible).map (fun r => r.id)).Nodup) :
    (∀ f : String → Bool,
      (checkNearbyReminders (TickEnv.mk env.now env.fetch env.dist f) loc st).1 =
        (checkNearbyReminders env loc st).1) ∧
    (∀ p : Attempt, p ∈ (checkNearbyReminders env loc st).2 →
      p.1 ∈ (checkNearbyReminders env loc st).1.triggered) ∧
    (∀ p : Attempt, p ∈ (checkNearbyReminders env loc st).2 →
      ∀ (e : TickEnv) (l : Coords) (rems2 : List LocationReminder),
        e.fetch = some rems2 →
        (∀ r ∈ rems2, r.id = p.1 → ∀ rc, reminderCoords r = some rc →
          e.dist l rc ≤ 200) →
        ∀ b : Bool, ((p.1, b) : Attempt) ∉
          (checkNearbyReminders e l (checkNearbyReminders env loc st).1).2) := by
  have key : ∀ p : Attempt, p ∈ (checkNearbyReminders env loc st).2 →
      p.1 ∈ (checkNearbyReminders env loc st).1.triggered := by
    intro p hp
    simp only [checkNearbyReminders, hf] at hp ⊢
    rcases foldl_attempts_triggered hnodup (st, []) p hp with h1 | h1
    · simp at h1
    · exact h1
  refine ⟨?_, key, ?_⟩
  · intro f
    have hf2 : (TickEnv.mk env.now env.fetch env.dist f).fetch = some rems := hf
    simp only [checkNearbyReminders, hf, hf2]
    exact @foldl_fst_schedOk env (TickEnv.mk env.now env.fetch env.dist f) loc
      (rems.filter eligible) rfl rfl (st, []) (st, []) rfl
  · intro p hp e l rems2 hf2 hd2 b hb
    have hin := key p hp
    simp only [checkNearbyReminders, hf2] at hb
    have hd2' : ∀ r ∈ rems2.filter eligible, r.id = p.1 →
        ∀ rc, reminderCoords r = some rc → e.dist l rc ≤ 200 :=
      fun r hr => hd2 r (List.mem_of_mem_filter hr)
    have hsup := @foldl_suppressed e l (rems2.filter eligible) p.1
      ((checkNearbyReminders env loc st).1, []) hin hd2'
    have := (hsup.1 b).mp hb
    simp at this

/-- Witness for Claim C9: a 50 m trigger whose notification scheduling
fails (`schedOk` constantly false) still commits the triggered-set
mutation, and a follow-up tick within 200 m attempts nothing. -/
theorem dispatch_failure_not_rolled_back_witness :
    (∀ f : String → Bool,
      (checkNearbyReminders
        (TickEnv.mk 0 (some [⟨"r1", "t", "c", true, some ⟨some (CoordValue.num 0), some (CoordValue.num 0)⟩⟩])
          (fun _ _ => 50) f) ⟨0, 0⟩ initState).1 =
        (checkNearbyReminders
          (TickEnv.mk 0 (some [⟨"r1", "t", "c", true, some ⟨some (CoordValue.num 0), some (CoordValue.num 0)⟩⟩])
            (fun _ _ => 50) (fun _ => false)) ⟨0, 0⟩ initState).1) ∧
    (∀ p : Attempt, p ∈ (checkNearbyReminders
        (TickEnv.mk 0 (some [⟨"r1", "t", "c", true, some ⟨some (CoordValue.num 0), some (CoordValue.num 0)⟩⟩])
          (fun _ _ => 50) (fun _ => false)) ⟨0, 0⟩ initState).2 →
      p.1 ∈ (checkNearbyReminders
        (TickEnv.mk 0 (some [⟨"r1", "t", "c", true, some ⟨some (CoordValue.num 0), some (CoordValue.num 0)⟩⟩])
          (fun _ _ => 50) (fun _ => false)) ⟨0, 0⟩ initState).1.triggered) ∧
    (∀ p : Attempt, p ∈ (checkNearbyReminders
        (TickEnv.mk 0 (some [⟨"r1", "t", "c", true, some ⟨some (CoordValue.num 0), some (CoordValue.num 0)⟩⟩])
          (fun _ _ => 50) (fun _ => false)) ⟨0, 0⟩ initState).2 →
      ∀ (e : TickEnv) (l : Coords) (rems2 : List LocationReminder),
        e.fetch = some rems2 →
        (∀ r ∈ rems2, r.id = p.1 → ∀ rc, reminderCoords r = some rc →
          e.dist l rc ≤ 200) →
        ∀ b : Bool, ((p.1, b) : Attempt) ∉
          (checkNearbyReminders e l (checkNearbyReminders
            (TickEnv.mk 0 (some [⟨"r1", "t", "c", true, some ⟨some (CoordValue.num 0), some (CoordValue.num 0)⟩⟩])
              (fun _ _ => 50) (fun _ => false)) ⟨0, 0⟩ initState).1).2) :=
  @dispatch_failure_not_rolled_back
    (TickEnv.mk 0 (some [⟨"r1", "t", "c", true, some ⟨some (CoordValue.num 0), some (CoordValue.num 0)⟩⟩])
      (fun _ _ => 50) (fun _ => false))
    ⟨0, 0⟩ initState [⟨"r1", "t", "c", true, some ⟨some (CoordValue.num 0), some (CoordValue.num 0)⟩⟩]
    rfl (by decide)

/-- Claim C7: `startLocationTracking` returns `false` — and leaves the
state, including the task-registration flag, untouched — whenever the
notification or the foreground/background location permission flow does
not end in `granted`; and it never throws: a throw in any provider call
(permission query, task query, stop, registration) only ever yields a
`false` result, so a `true` result certifies that both permission flows
granted and the registration call succeeded. -/
theorem start_tracking_permissions_and_errors (env : ProviderEnv)
    (st : MonitorState) :
    ((requestPermissions env = false ∨ requestLocationPermissions env = false) →
      startLocationTracking env st = (false, st)) ∧
    ((startLocationTracking env st).1 = true →
      requestPermissions env = true ∧ requestLocationPermissions env = true ∧
      env.isTaskRegisteredFails = false ∧
      (st.taskRegistered = true → env.stopUpdatesResult = some ()) ∧
      env.startUpdatesResult = some ()) := by
  constructor
  · intro h
    have hcond : ¬(requestPermissions env = true ∧
        requestLocationPermissions env = true) := by
      rintro ⟨ha, hb⟩
      rcases h with h | h
      · rw [h] at ha
        exact Bool.false_ne_true ha
      · rw [h] at hb
        exact Bool.false_ne_true hb
    simp only [startLocationTracking]
    rw [if_pos hcond]
  · intro h
    simp only [startLocationTracking] at h
    split_ifs at h with h1 h2 h3
    · revert h
      rcases hstop : env.stopUpdatesResult with _ | u
      · intro h
        simp at h
      · rcases hstart : env.startUpdatesResult with _ | v
        · intro h
          simp at h
        · intro h
          exact ⟨h1.1, h1.2, by simpa using h2, fun _ => rfl, rfl⟩
    · revert h
      rcases hstart : env.startUpdatesResult with _ | v
      · intro h
        simp at h
      · intro h
        exact ⟨h1.1, h1.2, by simpa using h2, fun hh => absurd hh h3, rfl⟩

/-- Witness for Claim C7: background location permission denied. -/
theorem start_tracking_permissions_and_errors_witness :
    (requestPermissions
        (ProviderEnv.mk (some "granted") none (some "granted") (some "denied")
          false (some ()) (some ())) = false ∨
      requestLocationPermissions
        (ProviderEnv.mk (some "granted") none (some "granted") (some "denied")
          false (some ()) (some ())) = false) ∧
    startLocationTracking
        (ProviderEnv.mk (some "granted") none (some "granted") (some "denied")
          false (some ()) (some ())) initState = (false, initState) :=
  ⟨Or.inr (by decide),
    (start_tracking_permissions_and_errors
      (ProviderEnv.mk (some "granted") none (some "granted") (some "denied")
        false (some ()) (some ())) initState).1 (Or.inr (by decide))⟩

/-- Counterexample to Claim C8: when the `isTaskRegisteredAsync` query
throws, the catch skips `triggeredReminders.clear()`, so after
`stopLocationTracking` returns the triggered set is NOT empty. -/
theorem stop_tracking_counterexample :
    (stopLocationTracking
      (ProviderEnv.mk (some "granted") none (some "granted") (some "granted")
        true (some ()) (some ()))
      (MonitorState.mk {"r1"} [] true)).triggered ≠ ∅ := by decide

/-- Claim C8 as amended: provided the provider calls involved succeed
(the registration query, and the stop call when a task is registered),
`stopLocationTracking` empties the triggered set, leaves the task
unregistered, is idempotent, and when no task was registered only clears
the set; but when a provider call throws, the caught error makes the
call return with the state — including a non-empty triggered set —
unchanged.  It never throws either way. -/
theorem stop_tracking_amended (env : ProviderEnv) (st : MonitorState)
    (h1 : env.isTaskRegisteredFails = false)
    (h2 : st.taskRegistered = true → env.stopUpdatesResult = some ()) :
    (stopLocationTracking env st).triggered = ∅ ∧
    (stopLocationTracking env st).taskRegistered = false ∧
    stopLocationTracking env (stopLocationTracking env st) =
      stopLocationTracking env st ∧
    (st.taskRegistered = false →
      stopLocationTracking env st = { st with triggered := ∅ }) ∧
    (∀ (e : ProviderEnv) (s : MonitorState), e.isTaskRegisteredFails = true →
      stopLocationTracking e s = s) := by
  have hlast : ∀ (e : ProviderEnv) (s : MonitorState),
      e.isTaskRegisteredFails = true → stopLocationTracking e s = s := by
    intro e s he
    unfold stopLocationTracking
    rw [he]
    simp
  by_cases htask : st.taskRegistered = true
  · have hstop := h2 htask
    have hs : stopLocationTracking env st =
        { st with taskRegistered := false, triggered := ∅ } := by
      unfold stopLocationTracking
      rw [h1, htask, hstop]
      simp
    have hs2 : stopLocationTracking env
        { st with taskRegistered := false, triggered := ∅ } =
        { st with taskRegistered := false, triggered := ∅ } := by
      unfold stopLocationTracking
      rw [h1]
      simp
    rw [hs]
    refine ⟨rfl, rfl, by rw [hs2], ?_, hlast⟩
    intro hh
    rw [htask] at hh
    exact absurd hh (by simp)
  · have htask' : st.taskRegistered = false := by simpa using htask
    have hs : stopLocationTracking env st = { st with triggered := ∅ } := by
      unfold stopLocationTracking
      rw [h1, htask']
      simp
    have hs2 : stopLocationTracking env { st with triggered := ∅ } =
        { st with triggered := ∅ } := by
      unfold stopLocationTracking
      rw [h1]
      simp [htask']
    rw [hs]
    exact ⟨rfl, htask', by rw [hs2], fun _ => rfl, hlast⟩

/-- Witness for the amended Claim C8 at a registered, triggered state. -/
theorem stop_tracking_amended_witness :
    (stopLocationTracking
      (ProviderEnv.mk (some "granted") none (some "granted") (some "granted")
        false (some ()) (some ()))
      (MonitorState.mk {"r1"} [("r1", 9)] true)).triggered = ∅ ∧
    (stopLocationTracking
      (ProviderEnv.mk (some "granted") none (some "granted") (some "granted")
        false (some ()) (some ()))
      (MonitorState.mk {"r1"} [("r1", 9)] true)).taskRegistered = false ∧
    stopLocationTracking
      (ProviderEnv.mk (some "granted") none (some "granted") (some "granted")
        false (some ()) (some ()))
      (stopLocationTracking
        (ProviderEnv.mk (some "granted") none (some "granted") (some "granted")
          false (some ()) (some ()))
        (MonitorState.mk {"r1"} [("r1", 9)] true)) =
      stopLocationTracking
        (ProviderEnv.mk (some "granted") none (some "granted") (some "granted")
          false (some ()) (some ()))
        (MonitorState.mk {"r1"} [("r1", 9)] true) ∧
    ((MonitorState.mk {"r1"} [("r1", 9)] true).taskRegistered = false →
      stopLocationTracking
        (ProviderEnv.mk (some "granted") none (some "granted") (some "granted")
          false (some ()) (some ()))
        (MonitorState.mk {"r1"} [("r1", 9)] true) =
        { MonitorState.mk {"r1"} [("r1", 9)] true with triggered := ∅ }) ∧
    (∀ (e : ProviderEnv) (s : MonitorState), e.isTaskRegisteredFails = true →
      stopLocationTracking e s = s) :=
  stop_tracking_amended
    (ProviderEnv.mk (some "granted") none (some "granted") (some "granted")
      false (some ()) (some ()))
    (MonitorState.mk {"r1"} [("r1", 9)] true) rfl (fun _ => rfl)

/-! ### The haversine distance -/

theorem atan2_sin_cos {t : ℝ} (h1 : -(Real.pi / 2) < t)
    (h2 : t < Real.pi / 2) : atan2 (Real.sin t) (Real.cos t) = t := by
  have hcos : 0 < Real.cos t := Real.cos_pos_of_mem_Ioo ⟨h1, h2⟩
  unfold atan2
  rw [if_pos hcos, ← Real.tan_eq_sin_div_cos, Real.arctan_tan h1 h2]

theorem calculateDistance_eq_spec (lat1 lon1 lat2 lon2 : ℝ) :
    calculateDistance lat1 lon1 lat2 lon2 =
      haversineSpecDistance lat1 lon1 lat2 lon2 := by
  simp only [calculateDistance, haversineSpecDistance]
  have ha :
      Real.sin ((lat2 - lat1) * (Real.pi / 180) / 2) *
          Real.sin ((lat2 - lat1) * (Real.pi / 180) / 2) +
        Real.cos (lat1 * (Real.pi / 180)) * Real.cos (lat2 * (Real.pi / 180)) *
          Real.sin ((lon2 - lon1) * (Real.pi / 180) / 2) *
          Real.sin ((lon2 - lon1) * (Real.pi / 180) / 2) =
      Real.sin ((lat2 - lat1) * (Real.pi / 180) / 2) ^ 2 +
        Real.cos (lat1 * (Real.pi / 180)) * Real.cos (lat2 * (Real.pi / 180)) *
          Real.sin ((lon2 - lon1) * (Real.pi / 180) / 2) ^ 2 := by
    ring
  rw [ha]
  ring

theorem calculateDistance_equator_tenth_degree :
    calculateDistance 0 0 (1 / 10) 0 =
      6371 * (2 * (Real.pi / 3600)) * 1000 := by
  have hpi := Real.pi_pos
  have hs0 : Real.sin (((0 : ℝ) - 0) * (Real.pi / 180) / 2) = 0 := by
    norm_num
  have hc0 : Real.cos ((0 : ℝ) * (Real.pi / 180)) = 1 := by
    norm_num
  simp only [calculateDistance, hs0, hc0, mul_zero, one_mul, add_zero]
  have hθ : ((1 : ℝ) / 10 - 0) * (Real.pi / 180) / 2 = Real.pi / 3600 := by
    ring
  rw [hθ]
  have hθ1 : -(Real.pi / 2) < Real.pi / 3600 := by linarith
  have hθ2 : Real.pi / 3600 < Real.pi / 2 := by linarith
  have hsin : 0 ≤ Real.sin (Real.pi / 3600) :=
    Real.sin_nonneg_of_nonneg_of_le_pi (by linarith) (by linarith)
  have hcos : 0 < Real.cos (Real.pi / 3600) :=
    Real.cos_pos_of_mem_Ioo ⟨hθ1, hθ2⟩
  rw [Real.sqrt_mul_self hsin]
  have h1m : 1 - Real.sin (Real.pi / 3600) * Real.sin (Real.pi / 3600) =
      Real.cos (Real.pi / 3600) * Real.cos (Real.pi / 3600) := by
    nlinarith [Real.sin_sq_add_cos_sq (Real.pi / 3600)]
  rw [h1m, Real.sqrt_mul_self hcos.le, atan2_sin_cos hθ1 hθ2]

/-- Claim C4: `calculateDistance` is exactly the haversine great-circle
distance in meters on a sphere of radius 6371 km as the spec words it —
`6371000 * 2 * atan2(sqrt a, sqrt (1-a))` with
`a = sin²(dLat/2) + cos(lat1)·cos(lat2)·sin²(dLon/2)` in radians — and
on the reference pair 0.1° of latitude apart at the equator its value is
within 0.5 % of the published 11.1 km. -/
theorem calculateDistance_haversine :
    (∀ lat1 lon1 lat2 lon2 : ℝ,
      calculateDistance lat1 lon1 lat2 lon2 =
        haversineSpecDistance lat1 lon1 lat2 lon2) ∧
    |calculateDistance 0 0 (1 / 10) 0 - 11100| < 5 / 1000 * 11100 := by
  refine ⟨calculateDistance_eq_spec, ?_⟩
  rw [calculateDistance_equator_tenth_degree, abs_lt]
  have hpi1 : (3.1415 : ℝ) < Real.pi := Real.pi_gt_d4
  have hpi2 : Real.pi < 3.1416 := Real.pi_lt_d4
  constructor <;> nlinarith
